import Mathlib

/-!
Verification of the prediction-serving path of the nyc-taxi-mlops repository.

The geospatial functions of `src/utils/geo_utils.py`, the feature derivation of
`src/components/feature_engineering.py` and the `/predict` endpoint of
`src/api/main.py` are embedded shallowly: machine floats become real numbers,
the Redis client becomes an association-list store together with explicit fault
flags, and the `try/except` wrapper of the endpoint becomes an explicit
error-result constructor.
-/

/-! ## Geospatial functions (src/utils/geo_utils.py) -/

/-- `np.radians`: degree-to-radian conversion. -/
noncomputable def radians (x : ℝ) : ℝ := x * Real.pi / 180

/-- `np.degrees`: radian-to-degree conversion. -/
noncomputable def degrees (x : ℝ) : ℝ := x * 180 / Real.pi

/-- `np.arctan2 y x`, the argument of the complex number `x + y*I`,
with range `(-π, π]`. -/
noncomputable def arctan2 (y x : ℝ) : ℝ := Complex.arg ⟨x, y⟩

/-- `haversine_array` from src/utils/geo_utils.py: great-circle distance in km,
Earth radius 6371. -/
noncomputable def haversine_array (lat1 lng1 lat2 lng2 : ℝ) : ℝ :=
  let rlat1 := radians lat1
  let rlng1 := radians lng1
  let rlat2 := radians lat2
  let rlng2 := radians lng2
  let dlat := rlat2 - rlat1
  let dlng := rlng2 - rlng1
  let d := Real.sin (dlat * 0.5) ^ 2 +
    Real.cos rlat1 * Real.cos rlat2 * Real.sin (dlng * 0.5) ^ 2
  2 * 6371 * Real.arcsin (Real.sqrt d)

/-- `dummy_manhattan_distance` from src/utils/geo_utils.py: the source computes
two haversine legs with *identical* argument lists and adds them. -/
noncomputable def dummy_manhattan_distance (lat1 lng1 lat2 lng2 : ℝ) : ℝ :=
  let a := haversine_array lat1 lng1 lat2 lng2
  let b := haversine_array lat1 lng1 lat2 lng2
  a + b

/-- `calculate_bearing` from src/utils/geo_utils.py: initial compass bearing in
degrees. -/
noncomputable def calculate_bearing (lat1 lng1 lat2 lng2 : ℝ) : ℝ :=
  let dLon := radians (lng2 - lng1)
  let rlat1 := radians lat1
  let rlat2 := radians lat2
  let y := Real.sin dLon * Real.cos rlat2
  let x := Real.cos rlat1 * Real.sin rlat2 -
    Real.sin rlat1 * Real.cos rlat2 * Real.cos dLon
  degrees (arctan2 y x)

/-- Modelled from the spec (§4.1): the standard haversine formula written
exactly as the spec states it, `d = sin²(Δlat/2) + cos(lat1)·cos(lat2)·sin²(Δlng/2)`,
`distance = 2·R·asin(√d)` with `R = 6371` and all angles in radians. -/
noncomputable def haversineDistanceKm (lat1 lng1 lat2 lng2 : ℝ) : ℝ :=
  2 * 6371 * Real.arcsin (Real.sqrt
    (Real.sin ((radians lat2 - radians lat1) / 2) ^ 2 +
      Real.cos (radians lat1) * Real.cos (radians lat2) *
        Real.sin ((radians lng2 - radians lng1) / 2) ^ 2))

/-- Modelled from the spec (§4.1): the intended axis-aligned rectilinear
approximation, the sum of one leg holding latitude fixed while longitude varies
and one leg holding longitude fixed while latitude varies, each a haversine
call. -/
noncomputable def approximateRectilinearDistanceKm (lat1 lng1 lat2 lng2 : ℝ) : ℝ :=
  haversine_array lat1 lng1 lat1 lng2 + haversine_array lat1 lng1 lat2 lng1

/-- Modelled from the spec (§4.1): the bearing formula written exactly as the
spec states it, `atan2(sin(Δlng)·cos(lat2), cos(lat1)·sin(lat2) − sin(lat1)·cos(lat2)·cos(Δlng))`
converted to degrees. -/
noncomputable def bearingDegrees (lat1 lng1 lat2 lng2 : ℝ) : ℝ :=
  degrees (arctan2
    (Real.sin (radians lng2 - radians lng1) * Real.cos (radians lat2))
    (Real.cos (radians lat1) * Real.sin (radians lat2) -
      Real.sin (radians lat1) * Real.cos (radians lat2) *
        Real.cos (radians lng2 - radians lng1)))

/-! ## MD5 (the `hashlib.md5(...).hexdigest()` call of src/api/main.py)

All words are natural numbers kept below `2^32` by explicit reduction
modulo `4294967296`. -/

/-- The 64 MD5 round constants `K[i] = floor(2^32 * |sin(i+1)|)`. -/
def md5K : List Nat :=
  [0xd76aa478, 0xe8c7b756, 0x242070db, 0xc1bdceee,
   0xf57c0faf, 0x4787c62a, 0xa8304613, 0xfd469501,
   0x698098d8, 0x8b44f7af, 0xffff5bb1, 0x895cd7be,
   0x6b901122, 0xfd987193, 0xa679438e, 0x49b40821,
   0xf61e2562, 0xc040b340, 0x265e5a51, 0xe9b6c7aa,
   0xd62f105d, 0x02441453, 0xd8a1e681, 0xe7d3fbc8,
   0x21e1cde6, 0xc33707d6, 0xf4d50d87, 0x455a14ed,
   0xa9e3e905, 0xfcefa3f8, 0x676f02d9, 0x8d2a4c8a,
   0xfffa3942, 0x8771f681, 0x6d9d6122, 0xfde5380c,
   0xa4beea44, 0x4bdecfa9, 0xf6bb4b60, 0xbebfbc70,
   0x289b7ec6, 0xeaa127fa, 0xd4ef3085, 0x04881d05,
   0xd9d4d039, 0xe6db99e5, 0x1fa27cf8, 0xc4ac5665,
   0xf4292244, 0x432aff97, 0xab9423a7, 0xfc93a039,
   0x655b59c3, 0x8f0ccc92, 0xffeff47d, 0x85845dd1,
   0x6fa87e4f, 0xfe2ce6e0, 0xa3014314, 0x4e0811a1,
   0xf7537e82, 0xbd3af235, 0x2ad7d2bb, 0xeb86d391]

/-- The 64 per-round left-rotation amounts. -/
def md5S : List Nat :=
  [7, 12, 17, 22, 7, 12, 17, 22, 7, 12, 17, 22, 7, 12, 17, 22,
   5, 9, 14, 20, 5, 9, 14, 20, 5, 9, 14, 20, 5, 9, 14, 20,
   4, 11, 16, 23, 4, 11, 16, 23, 4, 11, 16, 23, 4, 11, 16, 23,
   6, 10, 15, 21, 6, 10, 15, 21, 6, 10, 15, 21, 6, 10, 15, 21]

/-- 32-bit left rotation. -/
def rotl32 (x n : Nat) : Nat :=
  ((x <<< n) % 4294967296) ||| ((x % 4294967296) >>> (32 - n))

/-- The MD5 nonlinear function of round `i` applied to `b`, `c`, `d`. -/
def md5Mix (i b c d : Nat) : Nat :=
  if i < 16 then (b &&& c) ||| ((b ^^^ 0xffffffff) &&& d)
  else if i < 32 then (d &&& b) ||| ((d ^^^ 0xffffffff) &&& c)
  else if i < 48 then b ^^^ c ^^^ d
  else c ^^^ (b ||| (d ^^^ 0xffffffff))

/-- The message-word index used in round `i`. -/
def md5Idx (i : Nat) : Nat :=
  if i < 16 then i
  else if i < 32 then (5 * i + 1) % 16
  else if i < 48 then (3 * i + 5) % 16
  else (7 * i) % 16

/-- One MD5 round on state `(a, b, c, d)` with message words `m`. -/
def md5Step (m : List Nat) (st : Nat × Nat × Nat × Nat) (i : Nat) :
    Nat × Nat × Nat × Nat :=
  let f := (md5Mix i st.2.1 st.2.2.1 st.2.2.2 + st.1 +
    md5K.getD i 0 + m.getD (md5Idx i) 0) % 4294967296
  (st.2.2.2, (st.2.1 + rotl32 f (md5S.getD i 0)) % 4294967296, st.2.1, st.2.2.1)

/-- Decode a 64-byte chunk into 16 little-endian 32-bit words. -/
def md5Words (chunk : List Nat) : List Nat :=
  (List.range 16).map fun j =>
    chunk.getD (4 * j) 0 + chunk.getD (4 * j + 1) 0 * 256 +
      chunk.getD (4 * j + 2) 0 * 65536 + chunk.getD (4 * j + 3) 0 * 16777216

/-- Process one 64-byte chunk. -/
def md5Chunk (st : Nat × Nat × Nat × Nat) (chunk : List Nat) :
    Nat × Nat × Nat × Nat :=
  let m := md5Words chunk
  let r := (List.range 64).foldl (md5Step m) st
  ((st.1 + r.1) % 4294967296, (st.2.1 + r.2.1) % 4294967296,
   (st.2.2.1 + r.2.2.1) % 4294967296, (st.2.2.2 + r.2.2.2) % 4294967296)

/-- MD5 padding: append `0x80`, zero bytes, then the bit length as eight
little-endian bytes, reaching a multiple of 64 bytes. -/
def md5Pad (bs : List Nat) : List Nat :=
  let z := (120 - ((bs.length + 1) % 64)) % 64
  bs ++ [0x80] ++ List.replicate z 0 ++
    ((List.range 8).map fun i => ((8 * bs.length) >>> (8 * i)) % 256)

/-- Split a byte list into 64-byte chunks. -/
def chunks64 : List Nat → List (List Nat)
  | [] => []
  | b :: t => ((b :: t).take 64) :: chunks64 ((b :: t).drop 64)
termination_by l => l.length
decreasing_by simp [List.length_drop]; omega

/-- Serialize a 32-bit word as four little-endian bytes. -/
def leBytes4 (w : Nat) : List Nat :=
  [w % 256, (w >>> 8) % 256, (w >>> 16) % 256, (w >>> 24) % 256]

/-- The 16-byte MD5 digest of a byte sequence. -/
def md5Bytes (msg : List Nat) : List Nat :=
  let r := (chunks64 (md5Pad msg)).foldl md5Chunk
    (0x67452301, 0xefcdab89, 0x98badcfe, 0x10325476)
  leBytes4 r.1 ++ leBytes4 r.2.1 ++ leBytes4 r.2.2.1 ++ leBytes4 r.2.2.2

/-- Lower-case hexadecimal digit: code point 48 + n for 0-9, 87 + n for
a-f. -/
def hexDigitChar (n : Nat) : Char :=
  if n < 10 then Char.ofNat (48 + n) else Char.ofNat (87 + n)

/-- Two hexadecimal characters per byte. -/
def bytesToHexChars : List Nat → List Char
  | [] => []
  | b :: t => hexDigitChar (b / 16 % 16) :: hexDigitChar (b % 16) :: bytesToHexChars t

/-- `hashlib.md5(s.encode()).hexdigest()` for an ASCII string `s`. -/
def md5hex (s : String) : String :=
  String.mk (bytesToHexChars (md5Bytes (s.data.map Char.toNat)))

/-! ## Canonical JSON serialization (`json.dumps(data.dict(), sort_keys=True)`) -/

/-- Ordering of name/value pairs by name, the order `sort_keys=True` uses. -/
def keyLE (a b : String × String) : Prop := a.1 ≤ b.1

instance : DecidableRel keyLE := fun a b => inferInstanceAs (Decidable (a.1 ≤ b.1))

instance : IsTotal (String × String) keyLE := ⟨fun a b => le_total a.1 b.1⟩

instance : IsTrans (String × String) keyLE := ⟨fun _ _ _ h1 h2 => le_trans h1 h2⟩

/-- JSON escaping of a character inside a string literal. -/
def jsonEscapeChar (c : Char) : List Char :=
  if c = '\"' then ['\\', '\"'] else if c = '\\' then ['\\', '\\'] else [c]

/-- JSON escaping of every character of a string. -/
def jsonEscape : List Char → List Char
  | [] => []
  | c :: t => jsonEscapeChar c ++ jsonEscape t

/-- A JSON string literal. -/
def jsonQuote (s : String) : String :=
  "\"" ++ String.mk (jsonEscape s.data) ++ "\""

/-- One `"name": value` member of a JSON object. -/
def renderPair (p : String × String) : String := jsonQuote p.1 ++ ": " ++ p.2

/-- `json.dumps` of an object with `sort_keys=True`: the members are sorted by
name before rendering, so the result does not depend on insertion order. -/
def json_dumps_sorted (l : List (String × String)) : String :=
  "\x7b" ++ String.intercalate ", " ((List.insertionSort keyLE l).map renderPair) ++ "\x7d"

/-! ## Request schema (src/api/schemas.py) and cache key (src/api/main.py) -/

/-- `TaxiInput` from src/api/schemas.py. Machine floats are modelled as real
numbers. -/
structure TaxiInput where
  pickup_datetime : String
  pickup_longitude : ℝ
  pickup_latitude : ℝ
  dropoff_longitude : ℝ
  dropoff_latitude : ℝ
  passenger_count : Nat

/-- `data.dict()`: the pydantic model as name/value pairs, in field declaration
order. `fmt` renders a float the way `json.dumps` would; it is a parameter
because the float-to-text conversion lives outside the repository (spec §4.3
says floats are hashed on their exact textual representation). -/
def dictOf (fmt : ℝ → String) (d : TaxiInput) : List (String × String) :=
  [("pickup_datetime", jsonQuote d.pickup_datetime),
   ("pickup_longitude", fmt d.pickup_longitude),
   ("pickup_latitude", fmt d.pickup_latitude),
   ("dropoff_longitude", fmt d.dropoff_longitude),
   ("dropoff_latitude", fmt d.dropoff_latitude),
   ("passenger_count", toString d.passenger_count)]

/-- `generate_cache_key` from src/api/main.py: MD5 hex digest of the
sorted-keys JSON serialization of the request. -/
def generate_cache_key (fmt : ℝ → String) (d : TaxiInput) : String :=
  md5hex (json_dumps_sorted (dictOf fmt d))

/-! ## Timestamp parsing and calendar fields
(src/components/feature_engineering.py) -/

/-- A parsed calendar date-time. -/
structure Timestamp where
  year : Nat
  month : Nat
  day : Nat
  hour : Nat
  minute : Nat
  second : Nat
deriving DecidableEq

/-- Numeric value of a decimal digit character. -/
def digitVal (c : Char) : Option Nat :=
  if c.isDigit then some (c.toNat - 48) else none

/-- Two decimal digits. -/
def parse2 (a b : Char) : Option Nat :=
  match digitVal a, digitVal b with
  | some x, some y => some (10 * x + y)
  | _, _ => none

/-- Four decimal digits. -/
def parse4 (a b c d : Char) : Option Nat :=
  match digitVal a, digitVal b, digitVal c, digitVal d with
  | some w, some x, some y, some z => some (1000 * w + 100 * x + 10 * y + z)
  | _, _, _, _ => none

/-- Gregorian leap-year rule. -/
def isLeapYear (y : Nat) : Bool :=
  (y % 4 == 0 && y % 100 != 0) || y % 400 == 0

/-- Number of days of month `m` of year `y`. -/
def daysInMonth (y m : Nat) : Nat :=
  if m = 2 then (if isLeapYear y then 29 else 28)
  else if m = 4 ∨ m = 6 ∨ m = 9 ∨ m = 11 then 30
  else 31

/-- Build a timestamp after checking the calendar ranges. -/
def mkTimestamp (y mo d h mi s : Nat) : Option Timestamp :=
  if 1 ≤ mo ∧ mo ≤ 12 ∧ 1 ≤ d ∧ d ≤ daysInMonth y mo ∧ h ≤ 23 ∧ mi ≤ 59 ∧ s ≤ 59 then
    some ⟨y, mo, d, h, mi, s⟩
  else none

/-- `pd.to_datetime` restricted to the fixed `YYYY-MM-DD HH:MM:SS` textual
format the spec (§3) fixes for `pickup_datetime`; any other shape or an
out-of-range calendar field fails to parse. -/
def parse_datetime (s : String) : Option Timestamp :=
  match s.data with
  | [y1, y2, y3, y4, c1, m1, m2, c2, d1, d2, c3, h1, h2, c4, n1, n2, c5, s1, s2] =>
    if c1 = '-' ∧ c2 = '-' ∧ c3 = ' ' ∧ c4 = ':' ∧ c5 = ':' then
      match parse4 y1 y2 y3 y4, parse2 m1 m2, parse2 d1 d2,
            parse2 h1 h2, parse2 n1 n2, parse2 s1 s2 with
      | some y, some mo, some dd, some hh, some mi, some se =>
        mkTimestamp y mo dd hh mi se
      | _, _, _, _, _, _ => none
    else none
  | _ => none

/-- Zero-based day of the year. -/
def dayOfYear (y m d : Nat) : Nat :=
  (List.range (m - 1)).foldl (fun acc i => acc + daysInMonth y (i + 1)) 0 + (d - 1)

/-- Days since the proleptic Gregorian date 0001-01-01. -/
def rataDie (y m d : Nat) : Nat :=
  365 * (y - 1) + (y - 1) / 4 - (y - 1) / 100 + (y - 1) / 400 + dayOfYear y m d

/-- `pandas .dt.dayofweek`: Monday = 0 .. Sunday = 6 (0001-01-01 was a
Monday). -/
def dayofweek (y m d : Nat) : Nat := rataDie y m d % 7

/-! ## Feature engineering (src/components/feature_engineering.py) -/

/-- The columns `create_features` adds to the single-row frame built from a
request. -/
structure Features where
  month : Nat
  day_of_week : Nat
  hour : Nat
  is_weekend : Nat
  distance_haversine : ℝ
  distance_manhattan : ℝ
  bearing : ℝ

/-- `create_features` from src/components/feature_engineering.py, applied to
the one row built from a request whose `pickup_datetime` parsed to `ts`. -/
noncomputable def create_features (d : TaxiInput) (ts : Timestamp) : Features where
  month := ts.month
  day_of_week := dayofweek ts.year ts.month ts.day
  hour := ts.hour
  is_weekend := if 5 ≤ dayofweek ts.year ts.month ts.day then 1 else 0
  distance_haversine := haversine_array d.pickup_latitude d.pickup_longitude
    d.dropoff_latitude d.dropoff_longitude
  distance_manhattan := dummy_manhattan_distance d.pickup_latitude d.pickup_longitude
    d.dropoff_latitude d.dropoff_longitude
  bearing := calculate_bearing d.pickup_latitude d.pickup_longitude
    d.dropoff_latitude d.dropoff_longitude

/-- The model input row, in the exact column order the `features` list of
src/api/main.py selects. -/
noncomputable def featureVector (d : TaxiInput) (ts : Timestamp) : List ℝ :=
  [(d.passenger_count : ℝ), d.pickup_longitude, d.pickup_latitude,
   d.dropoff_longitude, d.dropoff_latitude,
   ((create_features d ts).month : ℝ), ((create_features d ts).day_of_week : ℝ),
   ((create_features d ts).hour : ℝ), ((create_features d ts).is_weekend : ℝ),
   (create_features d ts).distance_haversine,
   (create_features d ts).distance_manhattan,
   (create_features d ts).bearing]

/-! ## The `/predict` endpoint (src/api/main.py) -/

/-- The response body of a successful prediction. -/
structure PredictionOutput where
  predicted_duration_seconds : ℝ
  predicted_duration_minutes : ℝ

/-- Observable side effects of one request: each Redis call and each inference
call, in order. `cacheSet` records the TTL passed to `setex`. -/
inductive Ev where
  | cacheGet : Ev
  | inference : Ev
  | cacheSet : Nat → Ev
deriving DecidableEq

/-- What the endpoint hands back to FastAPI: a response body, or an
`HTTPException` with a status code. -/
inductive PredictResult where
  | ok : PredictionOutput → PredictResult
  | httpError : Nat → PredictResult

/-- Mid-request cache-backend failures: `failGet` makes `cache.get` raise,
`failSet` makes `cache.setex` raise. -/
structure CacheFaults where
  failGet : Bool
  failSet : Bool

/-- `round(x, 2)`: rounding to two decimal places. -/
noncomputable def round2 (x : ℝ) : ℝ := (round (x * 100) : ℤ) / 100

/-- `np.expm1`. -/
noncomputable def expm1 (y : ℝ) : ℝ := Real.exp y - 1

/-- The `response_data` dictionary built on a cache miss from the raw
log-scale prediction `y`. -/
noncomputable def mkResponse (y : ℝ) : PredictionOutput :=
  ⟨round2 (expm1 y), round2 (expm1 y / 60)⟩

/-- The body of `predict` from src/api/main.py.

 * `redisAvailable` is the module-level `redis_available` flag decided once at
   startup;
 * `faults` injects mid-request Redis errors;
 * `inferFn` is the loaded ONNX session, a pure function of the feature row;
 * `fmt` renders a float the way `json.dumps` would;
 * `store` is the current Redis content as key/value pairs.

The `try/except` of the source turns any raised exception into an
`HTTPException(500)`, which the model returns as `httpError 500`.
Returned are the result, the Redis content afterwards, and the event trace. -/
noncomputable def predict (redisAvailable : Bool) (faults : CacheFaults)
    (inferFn : List ℝ → ℝ) (fmt : ℝ → String)
    (store : List (String × PredictionOutput)) (data : TaxiInput) :
    PredictResult × List (String × PredictionOutput) × List Ev :=
  if redisAvailable then
    let key := generate_cache_key fmt data
    if faults.failGet then (.httpError 500, store, [.cacheGet])
    else
      match List.lookup key store with
      | some r => (.ok r, store, [.cacheGet])
      | none =>
        match parse_datetime data.pickup_datetime with
        | none => (.httpError 500, store, [.cacheGet])
        | some ts =>
          let resp := mkResponse (inferFn (featureVector data ts))
          if faults.failSet then
            (.httpError 500, store, [.cacheGet, .inference, .cacheSet 3600])
          else
            (.ok resp, (key, resp) :: store, [.cacheGet, .inference, .cacheSet 3600])
  else
    match parse_datetime data.pickup_datetime with
    | none => (.httpError 500, store, [])
    | some ts =>
      (.ok (mkResponse (inferFn (featureVector data ts))), store, [.inference])

/-- An inbound JSON payload: each field of `TaxiInput` possibly absent or of
the wrong type. -/
structure RawPayload where
  pickup_datetime : Option String
  pickup_longitude : Option ℝ
  pickup_latitude : Option ℝ
  dropoff_longitude : Option ℝ
  dropoff_latitude : Option ℝ
  passenger_count : Option Nat

/-- Modelled from the spec: the FastAPI/pydantic validation of the fields
declared by `TaxiInput` in src/api/schemas.py — the framework code that
rejects a payload with a missing or mistyped required field before the
endpoint body runs is not part of the repository. -/
def validateTaxiInput (p : RawPayload) : Option TaxiInput :=
  match p.pickup_datetime, p.pickup_longitude, p.pickup_latitude,
        p.dropoff_longitude, p.dropoff_latitude, p.passenger_count with
  | some a, some b, some c, some d, some e, some f => some ⟨a, b, c, d, e, f⟩
  | _, _, _, _, _, _ => none

/-- One full request: framework validation (422 on failure, with the endpoint
body never entered), then the endpoint body. -/
noncomputable def handleRequest (redisAvailable : Bool) (faults : CacheFaults)
    (inferFn : List ℝ → ℝ) (fmt : ℝ → String)
    (store : List (String × PredictionOutput)) (p : RawPayload) :
    PredictResult × List (String × PredictionOutput) × List Ev :=
  match validateTaxiInput p with
  | none => (.httpError 422, store, [])
  | some data => predict redisAvailable faults inferFn fmt store data

/-- The end-to-end example request of spec §8. -/
def exampleRequest : TaxiInput :=
  ⟨"2026-01-20 10:00:00", -73.9857, 40.7484, -73.9665, 40.7812, 1⟩

/-- The timestamp the example request parses to. -/
def exampleTs : Timestamp := ⟨2026, 1, 20, 10, 0, 0⟩

/-- A request whose `pickup_datetime` string does not parse. -/
def badRequest : TaxiInput := ⟨"banana", 0, 0, 0, 0, 1⟩

/-- A payload missing the required `pickup_datetime` field. -/
def missingTimestampPayload : RawPayload :=
  ⟨none, some 0, some 0, some 0, some 0, some 1⟩

/-! ## Helper lemmas: geospatial functions -/

theorem radians_sub (a b : ℝ) : radians a - radians b = radians (a - b) := by
  unfold radians; ring

theorem sin_sq_sub_comm (x y : ℝ) :
    Real.sin ((x - y) * 0.5) ^ 2 = Real.sin ((y - x) * 0.5) ^ 2 := by
  rw [show (x - y) * 0.5 = -((y - x) * 0.5) by ring, Real.sin_neg]
  ring

theorem haversine_array_eq_spec (lat1 lng1 lat2 lng2 : ℝ) :
    haversine_array lat1 lng1 lat2 lng2 = haversineDistanceKm lat1 lng1 lat2 lng2 := by
  simp only [haversine_array, haversineDistanceKm]
  norm_num
  ring_nf

theorem haversine_array_self (lat lng : ℝ) : haversine_array lat lng lat lng = 0 := by
  simp [haversine_array]

theorem haversine_array_symm (lat1 lng1 lat2 lng2 : ℝ) :
    haversine_array lat1 lng1 lat2 lng2 = haversine_array lat2 lng2 lat1 lng1 := by
  simp only [haversine_array]
  rw [sin_sq_sub_comm (radians lat2) (radians lat1),
    sin_sq_sub_comm (radians lng2) (radians lng1),
    mul_comm (Real.cos (radians lat1)) (Real.cos (radians lat2))]

theorem haversine_agrees_0_0_0_180 : haversine_array 0 0 0 180 = 6371 * Real.pi := by
  have hs : Real.sin ((radians 180 - radians 0) * 0.5) = 1 := by
    rw [show (radians 180 - radians 0) * 0.5 = Real.pi / 2 by unfold radians; ring]
    exact Real.sin_pi_div_two
  have hz : Real.sin ((radians 0 - radians 0) * 0.5) = 0 := by simp
  have hc : Real.cos (radians 0) = 1 := by
    rw [show radians 0 = 0 by unfold radians; ring, Real.cos_zero]
  simp only [haversine_array]
  rw [hz, hs, hc]
  norm_num [Real.arcsin_one]
  ring

theorem haversine_array_pos (lat1 lng1 lat2 lng2 : ℝ)
    (h1 : 0 < (radians lat2 - radians lat1) * 0.5)
    (h2 : (radians lat2 - radians lat1) * 0.5 < Real.pi)
    (hc : 0 ≤ Real.cos (radians lat1) * Real.cos (radians lat2)) :
    0 < haversine_array lat1 lng1 lat2 lng2 := by
  simp only [haversine_array]
  have hsin : 0 < Real.sin ((radians lat2 - radians lat1) * 0.5) :=
    Real.sin_pos_of_pos_of_lt_pi h1 h2
  have hterm : 0 ≤ Real.cos (radians lat1) * Real.cos (radians lat2) *
      Real.sin ((radians lng2 - radians lng1) * 0.5) ^ 2 :=
    mul_nonneg hc (sq_nonneg _)
  have hd : 0 < Real.sin ((radians lat2 - radians lat1) * 0.5) ^ 2 +
      Real.cos (radians lat1) * Real.cos (radians lat2) *
        Real.sin ((radians lng2 - radians lng1) * 0.5) ^ 2 := by
    nlinarith
  have harc : 0 < Real.arcsin (Real.sqrt
      (Real.sin ((radians lat2 - radians lat1) * 0.5) ^ 2 +
        Real.cos (radians lat1) * Real.cos (radians lat2) *
          Real.sin ((radians lng2 - radians lng1) * 0.5) ^ 2)) :=
    Real.arcsin_pos.mpr (Real.sqrt_pos.mpr hd)
  have := mul_pos (show (0 : ℝ) < 2 * 6371 by norm_num) harc
  exact this

theorem calculate_bearing_eq_spec (lat1 lng1 lat2 lng2 : ℝ) :
    calculate_bearing lat1 lng1 lat2 lng2 = bearingDegrees lat1 lng1 lat2 lng2 := by
  simp only [calculate_bearing, bearingDegrees, radians_sub]

theorem calculate_bearing_mem_Ioc (lat1 lng1 lat2 lng2 : ℝ) :
    -180 < calculate_bearing lat1 lng1 lat2 lng2 ∧
      calculate_bearing lat1 lng1 lat2 lng2 ≤ 180 := by
  simp only [calculate_bearing, degrees, arctan2]
  have hp := Real.pi_pos
  constructor
  · rw [lt_div_iff₀ hp]
    nlinarith [Complex.neg_pi_lt_arg
      ⟨Real.cos (radians lat1) * Real.sin (radians lat2) -
        Real.sin (radians lat1) * Real.cos (radians lat2) *
          Real.cos (radians (lng2 - lng1)),
       Real.sin (radians (lng2 - lng1)) * Real.cos (radians lat2)⟩]
  · rw [div_le_iff₀ hp]
    nlinarith [Complex.arg_le_pi
      ⟨Real.cos (radians lat1) * Real.sin (radians lat2) -
        Real.sin (radians lat1) * Real.cos (radians lat2) *
          Real.cos (radians (lng2 - lng1)),
       Real.sin (radians (lng2 - lng1)) * Real.cos (radians lat2)⟩]

/-! ## Claim theorems: geospatial functions -/

/-- C5: for all coordinate pairs, `haversine_array` equals exactly the
standard haversine formula of the spec (Earth radius 6371 km, angles converted
to radians first), it returns 0 for identical points, and it is symmetric in
its two points. -/
theorem C5_haversine_matches_spec_zero_and_symmetric :
    ∀ lat1 lng1 lat2 lng2 : ℝ,
      haversine_array lat1 lng1 lat2 lng2 = haversineDistanceKm lat1 lng1 lat2 lng2 ∧
      haversine_array lat1 lng1 lat1 lng1 = 0 ∧
      haversine_array lat1 lng1 lat2 lng2 = haversine_array lat2 lng2 lat1 lng1 :=
  fun lat1 lng1 lat2 lng2 =>
    ⟨haversine_array_eq_spec lat1 lng1 lat2 lng2,
     haversine_array_self lat1 lng1,
     haversine_array_symm lat1 lng1 lat2 lng2⟩

/-- C8: for every pair of coordinate points, `calculate_bearing` returns the
initial compass bearing via the spec's `atan2` formula converted to degrees,
and the result always lies in the half-open interval `(-180, 180]`. -/
theorem C8_bearing_formula_and_range :
    ∀ lat1 lng1 lat2 lng2 : ℝ,
      calculate_bearing lat1 lng1 lat2 lng2 = bearingDegrees lat1 lng1 lat2 lng2 ∧
      -180 < calculate_bearing lat1 lng1 lat2 lng2 ∧
      calculate_bearing lat1 lng1 lat2 lng2 ≤ 180 :=
  fun lat1 lng1 lat2 lng2 =>
    ⟨calculate_bearing_eq_spec lat1 lng1 lat2 lng2,
     (calculate_bearing_mem_Ioc lat1 lng1 lat2 lng2).1,
     (calculate_bearing_mem_Ioc lat1 lng1 lat2 lng2).2⟩

/-- C10: for every pair of coordinate points, `dummy_manhattan_distance` is
exactly twice `haversine_array`, and consequently the `distance_manhattan`
feature produced by `create_features` is always exactly twice the
`distance_haversine` feature. -/
theorem C10_manhattan_is_twice_haversine :
    (∀ lat1 lng1 lat2 lng2 : ℝ,
      dummy_manhattan_distance lat1 lng1 lat2 lng2 =
        2 * haversine_array lat1 lng1 lat2 lng2) ∧
    (∀ (d : TaxiInput) (ts : Timestamp),
      (create_features d ts).distance_manhattan =
        2 * (create_features d ts).distance_haversine) := by
  constructor
  · intro lat1 lng1 lat2 lng2
    simp only [dummy_manhattan_distance]
    ring
  · intro d ts
    simp only [create_features, dummy_manhattan_distance]
    ring

/-- C1: the claim requires `dummy_manhattan_distance` to be the sum of two
axis-aligned haversine legs rather than a quantity derived from a single
direct diagonal haversine call; the source instead sums two identical direct
diagonal calls. At the equator points `(0, 0)` and `(0, 180)` the code
returns `2·6371·π` km while the axis-aligned two-leg sum is `6371·π` km, so
the code disagrees with the claimed (and spec-intended) definition. -/
theorem C1_dummy_manhattan_is_doubled_diagonal_not_axis_aligned :
    dummy_manhattan_distance 0 0 0 180 = 2 * (6371 * Real.pi) ∧
    approximateRectilinearDistanceKm 0 0 0 180 = 6371 * Real.pi ∧
    dummy_manhattan_distance 0 0 0 180 ≠ approximateRectilinearDistanceKm 0 0 0 180 := by
  have hd : dummy_manhattan_distance 0 0 0 180 = 2 * (6371 * Real.pi) := by
    simp only [dummy_manhattan_distance, haversine_agrees_0_0_0_180]
    ring
  have ha : approximateRectilinearDistanceKm 0 0 0 180 = 6371 * Real.pi := by
    simp only [approximateRectilinearDistanceKm, haversine_agrees_0_0_0_180,
      haversine_array_self, add_zero]
  refine ⟨hd, ha, ?_⟩
  rw [hd, ha]
  intro h
  have := Real.pi_ne_zero
  nlinarith [Real.pi_pos]

/-! ## Helper lemmas: canonical serialization and digest shape -/

theorem sorted_perm_nodupkeys_eq :
    ∀ l₁ l₂ : List (String × String), l₁.Perm l₂ →
      List.Sorted keyLE l₁ → List.Sorted keyLE l₂ →
      (l₁.map Prod.fst).Nodup → l₁ = l₂ := by
  intro l₁
  induction l₁ with
  | nil =>
    intro l₂ hp _ _ _
    exact hp.symm.eq_nil.symm
  | cons a t₁ ih =>
    intro l₂ hp hs₁ hs₂ hnd
    cases l₂ with
    | nil => exact absurd hp.eq_nil (by simp)
    | cons b t₂ =>
      rw [List.map_cons] at hnd
      obtain ⟨hna, hnt⟩ := List.nodup_cons.mp hnd
      have hab : a = b := by
        have ha : a ∈ b :: t₂ := hp.subset (List.mem_cons_self a t₁)
        have hb : b ∈ a :: t₁ := hp.symm.subset (List.mem_cons_self b t₂)
        rcases List.mem_cons.mp ha with h | ha2
        · exact h
        rcases List.mem_cons.mp hb with h | hb2
        · exact h.symm
        have h1 : b.1 ≤ a.1 := (List.sorted_cons.mp hs₂).1 a ha2
        have h2 : a.1 ≤ b.1 := (List.sorted_cons.mp hs₁).1 b hb2
        have hmem : a.1 ∈ t₁.map Prod.fst :=
          le_antisymm h2 h1 ▸ List.mem_map_of_mem Prod.fst hb2
        exact absurd hmem hna
      subst hab
      have htl : t₁ = t₂ :=
        ih t₂ hp.cons_inv (List.sorted_cons.mp hs₁).2 (List.sorted_cons.mp hs₂).2 hnt
      rw [htl]

theorem json_dumps_sorted_perm (l₁ l₂ : List (String × String))
    (h : l₁.Perm l₂) (hnd : (l₁.map Prod.fst).Nodup) :
    json_dumps_sorted l₁ = json_dumps_sorted l₂ := by
  unfold json_dumps_sorted
  have hperm : (List.insertionSort keyLE l₁).Perm (List.insertionSort keyLE l₂) :=
    ((List.perm_insertionSort keyLE l₁).trans h).trans
      (List.perm_insertionSort keyLE l₂).symm
  have hnd₁ : ((List.insertionSort keyLE l₁).map Prod.fst).Nodup :=
    (((List.perm_insertionSort keyLE l₁).map Prod.fst).nodup_iff).mpr hnd
  rw [sorted_perm_nodupkeys_eq _ _ hperm
    (List.sorted_insertionSort keyLE l₁) (List.sorted_insertionSort keyLE l₂) hnd₁]

theorem bytesToHexChars_length (bs : List Nat) :
    (bytesToHexChars bs).length = 2 * bs.length := by
  induction bs with
  | nil => rfl
  | cons b t ih =>
    simp only [bytesToHexChars, List.length_cons, ih]
    ring

theorem md5Bytes_length (msg : List Nat) : (md5Bytes msg).length = 16 := by
  simp [md5Bytes, leBytes4]

theorem md5hex_length (s : String) : (md5hex s).length = 32 := by
  show (String.mk (bytesToHexChars (md5Bytes (s.data.map Char.toNat)))).length = 32
  simp [String.length, bytesToHexChars_length, md5Bytes_length]

/-! ## Claim theorem: cache-key derivation -/

/-- C6: the canonicalized serialization `json.dumps(..., sort_keys=True)` is
invariant under the construction/insertion order of the name/value pairs (for
the distinct field names of a request), so equal field values always hash to
the identical key; `generate_cache_key` is a deterministic function of the
field values, idempotent on equal inputs, and always yields the fixed-length
32-character digest string. -/
theorem C6_cache_key_stable_idempotent_fixed_length :
    (∀ l₁ l₂ : List (String × String), l₁.Perm l₂ → (l₁.map Prod.fst).Nodup →
      md5hex (json_dumps_sorted l₁) = md5hex (json_dumps_sorted l₂)) ∧
    (∀ (fmt : ℝ → String) (d₁ d₂ : TaxiInput), d₁ = d₂ →
      generate_cache_key fmt d₁ = generate_cache_key fmt d₂) ∧
    (∀ (fmt : ℝ → String) (d : TaxiInput), (generate_cache_key fmt d).length = 32) := by
  refine ⟨?_, ?_, ?_⟩
  · intro l₁ l₂ h hnd
    rw [json_dumps_sorted_perm l₁ l₂ h hnd]
  · intro fmt d₁ d₂ h
    rw [h]
  · intro fmt d
    exact md5hex_length _

/-- C6 witness: the stability at a concrete reordered pair list, and the
digest length at a concrete request. -/
theorem C6_cache_key_witness :
    md5hex (json_dumps_sorted [("a", "1"), ("b", "2")]) =
      md5hex (json_dumps_sorted [("b", "2"), ("a", "1")]) ∧
    (generate_cache_key (fun _ => "0.0")
      ⟨"2026-01-20 10:00:00", 0, 0, 0, 0, 1⟩).length = 32 :=
  ⟨C6_cache_key_stable_idempotent_fixed_length.1 _ _ (by decide) (by decide),
   C6_cache_key_stable_idempotent_fixed_length.2.2 _ _⟩

/-! ## Claim theorems: the `/predict` flow -/

/-- C2 (amended): if the cache backend is unreachable at startup
(`redis_available = False`), every well-formed request still returns a
computed prediction and the request makes no cache access at all; but —
contrary to the claim as stated — a cache `get` or `set` failure mid-request
after a successful startup is caught by the endpoint's generic exception
handler and returned to the caller as an HTTP 500 error response. -/
theorem C2_unavailable_cache_falls_back_but_midrequest_failure_propagates :
    (∀ (faults : CacheFaults) (inferFn : List ℝ → ℝ) (fmt : ℝ → String)
        (store : List (String × PredictionOutput)) (data : TaxiInput) (ts : Timestamp),
      parse_datetime data.pickup_datetime = some ts →
      predict false faults inferFn fmt store data =
        (.ok (mkResponse (inferFn (featureVector data ts))), store, [.inference])) ∧
    (∀ (failSet : Bool) (inferFn : List ℝ → ℝ) (fmt : ℝ → String)
        (store : List (String × PredictionOutput)) (data : TaxiInput),
      predict true ⟨true, failSet⟩ inferFn fmt store data =
        (.httpError 500, store, [.cacheGet])) ∧
    (∀ (inferFn : List ℝ → ℝ) (fmt : ℝ → String)
        (store : List (String × PredictionOutput)) (data : TaxiInput) (ts : Timestamp),
      parse_datetime data.pickup_datetime = some ts →
      List.lookup (generate_cache_key fmt data) store = none →
      predict true ⟨false, true⟩ inferFn fmt store data =
        (.httpError 500, store, [.cacheGet, .inference, .cacheSet 3600])) := by
  refine ⟨?_, ?_, ?_⟩
  · intro faults inferFn fmt store data ts hp
    simp [predict, hp]
  · intro failSet inferFn fmt store data
    simp [predict]
  · intro inferFn fmt store data ts hp hl
    simp [predict, hp, hl]

/-- C2 witness: concrete instantiations of the startup-unreachable fallback
and of the mid-request set-failure propagation. -/
theorem C2_unavailable_cache_witness :
    predict false ⟨false, false⟩ (fun _ => 0) (fun _ => "0.0") [] exampleRequest =
      (.ok (mkResponse 0), [], [.inference]) ∧
    predict true ⟨false, true⟩ (fun _ => 0) (fun _ => "0.0") [] exampleRequest =
      (.httpError 500, [], [.cacheGet, .inference, .cacheSet 3600]) :=
  ⟨C2_unavailable_cache_falls_back_but_midrequest_failure_propagates.1
      ⟨false, false⟩ (fun _ => 0) (fun _ => "0.0") [] exampleRequest exampleTs (by decide),
   C2_unavailable_cache_falls_back_but_midrequest_failure_propagates.2.2
      (fun _ => 0) (fun _ => "0.0") [] exampleRequest exampleTs (by decide) rfl⟩

/-- C2 counterexample: with the cache available (successful startup), a
failing `cache.get` mid-request is propagated to the caller as an HTTP 500
error response instead of being treated as a miss. -/
theorem C2_midrequest_get_failure_returns_500 :
    (predict true ⟨true, false⟩ (fun _ => 0) (fun _ => "0.0") [] exampleRequest).1 =
      .httpError 500 := by
  simp [predict]

/-- C3 (amended): a payload missing a required field is rejected by the
schema validation with a 422 client-error response before the endpoint body
runs, with no cache access and no inference; but — contrary to the claim as
stated — a request whose `pickup_datetime` string is unparseable passes
validation, triggers a cache get when the cache is available, and ends in an
HTTP 500 error when parsing fails during feature engineering. -/
theorem C3_missing_field_422_but_unparseable_timestamp_reaches_cache :
    (∀ (ra : Bool) (faults : CacheFaults) (inferFn : List ℝ → ℝ) (fmt : ℝ → String)
        (store : List (String × PredictionOutput)) (p : RawPayload),
      p.pickup_datetime = none →
      handleRequest ra faults inferFn fmt store p = (.httpError 422, store, [])) ∧
    (∀ (inferFn : List ℝ → ℝ) (fmt : ℝ → String)
        (store : List (String × PredictionOutput)) (data : TaxiInput),
      parse_datetime data.pickup_datetime = none →
      List.lookup (generate_cache_key fmt data) store = none →
      predict true ⟨false, false⟩ inferFn fmt store data =
        (.httpError 500, store, [.cacheGet])) := by
  constructor
  · intro ra faults inferFn fmt store p hp
    simp [handleRequest, validateTaxiInput, hp]
  · intro inferFn fmt store data hp hl
    simp [predict, hp, hl]

/-- C3 witness: the 422 rejection at a concrete payload missing
`pickup_datetime`, and the cache-get-then-500 behavior at a concrete request
with an unparseable timestamp. -/
theorem C3_missing_field_witness :
    handleRequest true ⟨false, false⟩ (fun _ => 0) (fun _ => "0.0") []
        missingTimestampPayload = (.httpError 422, [], []) ∧
    predict true ⟨false, false⟩ (fun _ => 0) (fun _ => "0.0") [] badRequest =
      (.httpError 500, [], [.cacheGet]) :=
  ⟨C3_missing_field_422_but_unparseable_timestamp_reaches_cache.1
      true ⟨false, false⟩ (fun _ => 0) (fun _ => "0.0") [] missingTimestampPayload rfl,
   C3_missing_field_422_but_unparseable_timestamp_reaches_cache.2
      (fun _ => 0) (fun _ => "0.0") [] badRequest (by decide) rfl⟩

/-- C3 counterexample: a request with an unparseable pickup timestamp is
neither rejected with a client-error response nor rejected before cache
access: with the cache available the endpoint performs the cache get (the
event trace contains it) and returns an HTTP 500-class error. -/
theorem C3_unparseable_timestamp_gets_500_after_cache_get :
    predict true ⟨false, false⟩ (fun _ => 0) (fun _ => "0.0") [] badRequest =
      (.httpError 500, [], [.cacheGet]) := by
  have hp : parse_datetime "banana" = none := by decide
  simp [predict, badRequest, hp]

/-- C4: cache-aside correctness with the cache available: a first call with a
novel request (key absent from the store) runs inference and stores the
response under the derived key via `setex` with TTL 3600 seconds, and an
immediately following call with the identical request returns the stored
response from the cache, with no inference event in its trace. -/
theorem C4_cache_aside_first_miss_then_hit :
    ∀ (inferFn : List ℝ → ℝ) (fmt : ℝ → String)
      (store : List (String × PredictionOutput)) (data : TaxiInput) (ts : Timestamp),
      parse_datetime data.pickup_datetime = some ts →
      List.lookup (generate_cache_key fmt data) store = none →
      predict true ⟨false, false⟩ inferFn fmt store data =
        (.ok (mkResponse (inferFn (featureVector data ts))),
         (generate_cache_key fmt data, mkResponse (inferFn (featureVector data ts))) :: store,
         [.cacheGet, .inference, .cacheSet 3600]) ∧
      predict true ⟨false, false⟩ inferFn fmt
          ((generate_cache_key fmt data,
            mkResponse (inferFn (featureVector data ts))) :: store) data =
        (.ok (mkResponse (inferFn (featureVector data ts))),
         (generate_cache_key fmt data, mkResponse (inferFn (featureVector data ts))) :: store,
         [.cacheGet]) := by
  intro inferFn fmt store data ts hp hl
  constructor
  · simp [predict, hp, hl]
  · simp [predict, List.lookup]

/-- C4 witness: the miss-then-hit pair at a concrete request against an empty
store. -/
theorem C4_cache_aside_witness :
    predict true ⟨false, false⟩ (fun _ => 0) (fun _ => "0.0") [] exampleRequest =
      (.ok (mkResponse 0),
       [(generate_cache_key (fun _ => "0.0") exampleRequest, mkResponse 0)],
       [.cacheGet, .inference, .cacheSet 3600]) ∧
    predict true ⟨false, false⟩ (fun _ => 0) (fun _ => "0.0")
        [(generate_cache_key (fun _ => "0.0") exampleRequest, mkResponse 0)] exampleRequest =
      (.ok (mkResponse 0),
       [(generate_cache_key (fun _ => "0.0") exampleRequest, mkResponse 0)],
       [.cacheGet]) :=
  C4_cache_aside_first_miss_then_hit (fun _ => 0) (fun _ => "0.0") [] exampleRequest
    exampleTs (by decide) rfl

/-- C7: on every cache miss the response is built from the model's raw
log-scale output by `predictedSeconds = exp(raw) − 1`, with the seconds and
the minutes (= seconds/60) each rounded to two decimal places; and the
inverse transform composed with the training transform `log(1+x)` is the
identity. -/
theorem C7_inverse_log_transform_on_miss :
    (∀ (inferFn : List ℝ → ℝ) (fmt : ℝ → String)
        (store : List (String × PredictionOutput)) (data : TaxiInput) (ts : Timestamp),
      parse_datetime data.pickup_datetime = some ts →
      List.lookup (generate_cache_key fmt data) store = none →
      (predict true ⟨false, false⟩ inferFn fmt store data).1 =
        .ok ⟨round2 (Real.exp (inferFn (featureVector data ts)) - 1),
             round2 ((Real.exp (inferFn (featureVector data ts)) - 1) / 60)⟩) ∧
    (∀ x : ℝ, -1 < x → Real.exp (Real.log (1 + x)) - 1 = x) := by
  constructor
  · intro inferFn fmt store data ts hp hl
    simp [predict, hp, hl, mkResponse, expm1]
  · intro x hx
    rw [Real.exp_log (by linarith)]
    ring

/-- C7 witness: the miss-path response shape at a concrete request, and the
round trip at the spec's representative duration `x = 300`. -/
theorem C7_inverse_log_witness :
    (predict true ⟨false, false⟩ (fun _ => 0) (fun _ => "0.0") [] exampleRequest).1 =
      .ok ⟨round2 (Real.exp 0 - 1), round2 ((Real.exp 0 - 1) / 60)⟩ ∧
    Real.exp (Real.log (1 + 300)) - 1 = 300 :=
  ⟨C7_inverse_log_transform_on_miss.1 (fun _ => 0) (fun _ => "0.0") [] exampleRequest
      exampleTs (by decide) rfl,
   C7_inverse_log_transform_on_miss.2 300 (by norm_num)⟩

/-! ## Helper lemmas: calendar fields -/

theorem mkTimestamp_ranges (y mo d h mi s : Nat) (ts : Timestamp)
    (hmk : mkTimestamp y mo d h mi s = some ts) :
    1 ≤ ts.month ∧ ts.month ≤ 12 ∧ ts.hour ≤ 23 := by
  unfold mkTimestamp at hmk
  split at hmk
  · next hcond =>
    obtain ⟨h1, h2, _, _, h5, _, _⟩ := hcond
    cases hmk
    exact ⟨h1, h2, h5⟩
  · exact absurd hmk (by simp)

theorem parse_datetime_ranges (s : String) (ts : Timestamp)
    (h : parse_datetime s = some ts) :
    1 ≤ ts.month ∧ ts.month ≤ 12 ∧ ts.hour ≤ 23 := by
  unfold parse_datetime at h
  split at h
  · split at h
    · split at h
      · exact mkTimestamp_ranges _ _ _ _ _ _ _ h
      · exact absurd h (by simp)
    · exact absurd h (by simp)
  · exact absurd h (by simp)

theorem dayofweek_le_six (y m d : Nat) : dayofweek y m d ≤ 6 :=
  Nat.lt_succ_iff.mp (Nat.mod_lt _ (by norm_num))

theorem cos_radians_nonneg (x : ℝ) (h1 : 0 ≤ x) (h2 : x ≤ 90) :
    0 ≤ Real.cos (radians x) := by
  have hmem : radians x ∈ Set.Icc (-(Real.pi / 2)) (Real.pi / 2) := by
    simp only [Set.mem_Icc]
    constructor <;> (unfold radians; nlinarith [Real.pi_pos])
  exact Real.cos_nonneg_of_mem_Icc hmem

/-! ## Claim theorem: calendar-derived features -/

/-- C9: for every parseable timestamp the calendar features satisfy
month ∈ 1..12, hour ∈ 0..23, day-of-week ∈ 0..6 (Monday = 0), and
is_weekend = 1 exactly when day-of-week is 5 or 6; and for the spec's
end-to-end example request (`"2026-01-20 10:00:00"`, the Manhattan
coordinates), the derived features have is_weekend = 0, hour = 10,
day_of_week = 1 (Tuesday), and a strictly positive haversine distance. -/
theorem C9_calendar_features_ranges_and_example :
    (∀ (d : TaxiInput) (ts : Timestamp),
      parse_datetime d.pickup_datetime = some ts →
      1 ≤ (create_features d ts).month ∧ (create_features d ts).month ≤ 12 ∧
      (create_features d ts).hour ≤ 23 ∧ (create_features d ts).day_of_week ≤ 6 ∧
      ((create_features d ts).is_weekend = 1 ↔
        ((create_features d ts).day_of_week = 5 ∨
          (create_features d ts).day_of_week = 6)) ∧
      ((create_features d ts).is_weekend = 0 ∨ (create_features d ts).is_weekend = 1)) ∧
    (parse_datetime exampleRequest.pickup_datetime = some exampleTs ∧
     (create_features exampleRequest exampleTs).is_weekend = 0 ∧
     (create_features exampleRequest exampleTs).hour = 10 ∧
     (create_features exampleRequest exampleTs).day_of_week = 1 ∧
     0 < (create_features exampleRequest exampleTs).distance_haversine) := by
  constructor
  · intro d ts hp
    obtain ⟨h1, h2, h3⟩ := parse_datetime_ranges _ _ hp
    have hdow := dayofweek_le_six ts.year ts.month ts.day
    simp only [create_features]
    refine ⟨h1, h2, h3, hdow, ?_, ?_⟩
    · split_ifs with hw
      · constructor
        · intro _; omega
        · intro _; rfl
      · constructor
        · intro h; exact absurd h (by norm_num)
        · intro h; omega
    · split_ifs <;> simp
  · refine ⟨by decide, ?_, rfl, by decide, ?_⟩
    · simp only [create_features]
      decide
    · have hpos : 0 < haversine_array 40.7484 (-73.9857) 40.7812 (-73.9665) := by
        apply haversine_array_pos
        · unfold radians; nlinarith [Real.pi_pos]
        · unfold radians; nlinarith [Real.pi_pos]
        · exact mul_nonneg (cos_radians_nonneg _ (by norm_num) (by norm_num))
            (cos_radians_nonneg _ (by norm_num) (by norm_num))
      simpa [create_features, exampleRequest] using hpos

/-- C9 witness: the range facts applied at the example request. -/
theorem C9_calendar_features_witness :
    1 ≤ (create_features exampleRequest exampleTs).month ∧
    (create_features exampleRequest exampleTs).month ≤ 12 ∧
    (create_features exampleRequest exampleTs).hour ≤ 23 ∧
    (create_features exampleRequest exampleTs).day_of_week ≤ 6 ∧
    ((create_features exampleRequest exampleTs).is_weekend = 1 ↔
      ((create_features exampleRequest exampleTs).day_of_week = 5 ∨
        (create_features exampleRequest exampleTs).day_of_week = 6)) ∧
    ((create_features exampleRequest exampleTs).is_weekend = 0 ∨
      (create_features exampleRequest exampleTs).is_weekend = 1) :=
  C9_calendar_features_ranges_and_example.1 exampleRequest exampleTs (by decide)
